import Mathlib

/-!
Verification of the New Horizons Chat Forwarder (`chat_forwarder.py`).

Shallow embedding conventions:
* Python strings are modelled as `List Char`.
* Python floats appearing in the rate-limit logic are modelled as `ℚ`.
  Results of Python `float(...)` parses of header/body values are modelled
  as `Option ℚ`: `some v` when the parse succeeds with value `v` (Python
  `float` accepts negative numbers), `none` when the value is absent or the
  parse raises.
* `queue.Queue(maxsize=500)` is modelled as a `List (List Char)` together
  with a non-blocking `put_nowait` that fails (returns `none`) at capacity.
* Network I/O is modelled by passing in the sequence of attempt outcomes:
  `responses : ℕ → Option HttpResponse`, where `responses k = none` means
  the (k+1)-th POST raised a transport exception and `some r` means it
  returned response `r`.
-/

/-- The backquote character, U+0060 (written via `ofNat` to keep the file
free of literal backquotes). -/
def backquote : Char := Char.ofNat 96

/-- The single-quote character, U+0027. -/
def squote : Char := Char.ofNat 39

/-- Python `s.replace(chr(96), chr(39))`: every backquote becomes a single
quote; all other characters are unchanged (lines 233-234 of the source). -/
def clean_chars (s : List Char) : List Char :=
  s.map (fun c => if c = backquote then squote else c)

/-- `max_message_length` from `forwarder` (line 235). -/
def max_message_length : ℕ := 1800

/-- The three-dot ellipsis marker appended on truncation (line 237). -/
def ellipsis : List Char := ['.', '.', '.']

/-- Lines 236-237: `if len(clean_message) > 1800: clean_message =
clean_message[:1799] + ellipsis`. -/
def truncate_message (cm : List Char) : List Char :=
  if cm.length > max_message_length then
    cm.take (max_message_length - 1) ++ ellipsis
  else cm

/-- A single decimal digit as a character. -/
def digit_char (d : ℕ) : Char := Char.ofNat (48 + d)

/-- `strftime` zero-padded two-digit field (`%H` / `%M`); faithful for the
values `datetime.now()` can produce (hours `0..23`, minutes `0..59`). -/
def two_digit (n : ℕ) : List Char := [digit_char (n / 10 % 10), digit_char (n % 10)]

/-- Line 232: `datetime.now().strftime(HH:MM pattern)` for local hour `h`
and minute `m`. -/
def timestamp_hhmm (h m : ℕ) : List Char := two_digit h ++ [':'] ++ two_digit m

/-- Line 239: the f-string
`f"{timestamp} [**{clean_sender}**]: <bq>{clean_message}<bq>"` where `<bq>`
is the backquote character. -/
def format_content (h m : ℕ) (sender message : List Char) : List Char :=
  timestamp_hhmm h m ++ " [**".toList ++ clean_chars sender ++ "**]: ".toList
    ++ [backquote] ++ truncate_message (clean_chars message) ++ [backquote]

/-- `WEBHOOK_PREFIXES` (lines 45-48). -/
def WEBHOOK_PREFIXES : List (List Char) :=
  ["https://discord.com/api/webhooks/".toList,
   "https://discordapp.com/api/webhooks/".toList]

/-- Python `url.startswith(pat)` on our `List Char` model: first argument is
the pattern, second the string. -/
def starts_with : List Char → List Char → Bool
  | [], _ => true
  | _ :: _, [] => false
  | c :: cs, d :: ds => c = d && starts_with cs ds

/-- Lines 63-64: `any(url.startswith(p) for p in WEBHOOK_PREFIXES)`. -/
def is_valid_webhook_prefix (url : List Char) : Bool :=
  WEBHOOK_PREFIXES.any (fun p => starts_with p url)

/-- `SEND_QUEUE = queue.Queue(maxsize=500)` (line 152). -/
def QUEUE_MAXSIZE : ℕ := 500

/-- `SEND_QUEUE.put_nowait` (line 242): succeeds immediately below capacity,
raises `queue.Full` (modelled as `none`) at capacity; never blocks. -/
def put_nowait (q : List (List Char)) (c : List Char) : Option (List (List Char)) :=
  if q.length < QUEUE_MAXSIZE then some (q ++ [c]) else none

/-- The JSON body returned by the `/webhook` endpoint. -/
structure ApiResponse where
  status : List Char
  detail : Option (List Char)
deriving DecidableEq

/-- The `forwarder` endpoint (lines 225-248), as a function of the resolved
webhook url, the local wall-clock time, the two query parameters and the
current queue contents. Returns the JSON body and the new queue contents. -/
def forwarder (url : List Char) (h m : ℕ) (sender message : List Char)
    (q : List (List Char)) : ApiResponse × List (List Char) :=
  if is_valid_webhook_prefix url = false then
    (⟨"error".toList, some "Discord webhook not configured correctly.".toList⟩, q)
  else
    let content := format_content h m sender message
    match put_nowait q content with
    | none => (⟨"error".toList, some "Queue full! Message discarded.".toList⟩, q)
    | some q2 => (⟨"queued".toList, none⟩, q2)

example : clean_chars [backquote, 'a'] = [squote, 'a'] := by decide

example : truncate_message ['x'] = ['x'] := by decide

example :
    forwarder [] 9 5 ['B'] ['H'] [] =
      (⟨"error".toList, some "Discord webhook not configured correctly.".toList⟩, []) := by
  decide

/-- An outbound POST response, with parses pre-applied: `status_code` is the
HTTP status, `retry_after_header` is `some v` iff a Retry-After header was
present and Python `float` parsed it to `v` (negative values parse fine),
`body_retry_after` is `some v` iff the body was JSON whose `retry_after`
field `float`-parsed to `v` (anything else maps to `none`, which the code
turns into the 1.0 default), and `reset_after_header` is the parse of
`X-RateLimit-Reset-After`. -/
structure HttpResponse where
  status_code : ℕ
  retry_after_header : Option ℚ
  body_retry_after : Option ℚ
  reset_after_header : Option ℚ
deriving DecidableEq

/-- Lines 165-177: `retry_after` is the float parse of the Retry-After
header when that parse succeeds (no sign check in the code); otherwise the
float parse of the body field; otherwise the default `1.0`. -/
def retry_after_of (header body : Option ℚ) : ℚ :=
  match header with
  | some v => v
  | none =>
    match body with
    | some v => v
    | none => 1

/-- Line 179: `time.sleep(max(retry_after, 0.5))`. -/
def sleep_before_retry (header body : Option ℚ) : ℚ :=
  max (retry_after_of header body) (1 / 2)

/-- Modelled from the spec (§4.3 step 3), for comparison with the code: the
header is used only when it parses as a NON-NEGATIVE number; otherwise the
body field; otherwise 1.0. -/
def retry_after_spec (header body : Option ℚ) : ℚ :=
  match header with
  | some v => if 0 ≤ v then v else body.getD 1
  | none => body.getD 1

/-- `requests.Response.raise_for_status` raises exactly for 4xx and 5xx. -/
def http_error_status (s : ℕ) : Bool := decide (400 ≤ s ∧ s < 600)

/-- Outcome of one `send_to_discord` call: `ok` carries the parsed
`X-RateLimit-Reset-After` hint returned to the worker (lines 184-192);
`failed` stands for any raised exception. -/
inductive SendOutcome where
  | ok (reset_after : Option ℚ)
  | failed
deriving DecidableEq

/-- What one `send_to_discord` call did: how many POSTs it issued, the
sleeps it performed (in order, in seconds), and its outcome. -/
structure SendTrace where
  attempts : ℕ
  sleeps : List ℚ
  outcome : SendOutcome
deriving DecidableEq

/-- `send_to_discord` (lines 158-192) as a trace over the attempt outcomes:
POST once; on a 429 response sleep `max(retry_after, 0.5)` and POST exactly
once more; then `raise_for_status` on whatever response is current; on a
2xx/3xx response return the parsed reset-after hint. -/
def send_to_discord (responses : ℕ → Option HttpResponse) : SendTrace :=
  match responses 0 with
  | none => ⟨1, [], .failed⟩
  | some r =>
    if r.status_code = 429 then
      let d := sleep_before_retry r.retry_after_header r.body_retry_after
      match responses 1 with
      | none => ⟨2, [d], .failed⟩
      | some r2 =>
        if http_error_status r2.status_code then ⟨2, [d], .failed⟩
        else ⟨2, [d], .ok r2.reset_after_header⟩
    else if http_error_status r.status_code then ⟨1, [], .failed⟩
    else ⟨1, [], .ok r.reset_after_header⟩

/-- `base_spacing = 0.45` (line 198). -/
def base_spacing : ℚ := 45 / 100

/-- Lines 209-211: `spacing = base_spacing; if reset_after: spacing =
max(spacing, reset_after)`. Python truthiness: `None` and `0.0` are falsy,
every other float is truthy. -/
def success_spacing (reset_after : Option ℚ) : ℚ :=
  match reset_after with
  | some v => if v = 0 then base_spacing else max base_spacing v
  | none => base_spacing

/-- Line 215: `backoff = min((backoff * 2) if backoff else 1.0, 30.0)`. -/
def backoff_update (b : ℚ) : ℚ :=
  min (if b = 0 then 1 else b * 2) 30

/-- The worker's backoff value after `n` consecutive failed iterations,
starting from the initial `backoff = 0.0` (line 199). -/
def backoff_after : ℕ → ℚ
  | 0 => 0
  | n + 1 => backoff_update (backoff_after n)

/-- Worker-visible state across iterations: the queue contents and the
backoff scalar. -/
structure WorkerState where
  queue : List (List Char)
  backoff : ℚ
deriving DecidableEq

/-- What one pass of the `worker_loop` body (lines 201-218) did. -/
structure IterTrace where
  state : WorkerState
  posts : ℕ
  sleeps : List ℚ
deriving DecidableEq

/-- One iteration of `worker_loop` (lines 201-218): on an empty queue the
0.5s-timeout `get` raises `queue.Empty` and the loop continues; otherwise
the head payload is dequeued and sent. On success the worker sleeps the
pacing interval and resets backoff to 0; on any exception it grows backoff
and sleeps it. In both cases the payload is consumed and never re-enqueued. -/
def worker_iteration (s : WorkerState) (responses : ℕ → Option HttpResponse) : IterTrace :=
  match s.queue with
  | [] => ⟨s, 0, []⟩
  | _ :: rest =>
    let tr := send_to_discord responses
    match tr.outcome with
    | .ok reset_after =>
      ⟨⟨rest, 0⟩, tr.attempts, tr.sleeps ++ [success_spacing reset_after]⟩
    | .failed =>
      let b := backoff_update s.backoff
      ⟨⟨rest, b⟩, tr.attempts, tr.sleeps ++ [b]⟩

example : backoff_after 1 = 1 := by norm_num [backoff_after, backoff_update]

example : backoff_after 6 = 30 := by norm_num [backoff_after, backoff_update]

example : sleep_before_retry (some (-3)) (some 7) = 1 / 2 := by
  norm_num [sleep_before_retry, retry_after_of]

/-- Repeated enqueue through `put_nowait` (used to state FIFO ordering):
`none` as soon as one enqueue hits capacity. -/
def enqueue_all (q : List (List Char)) : List (List Char) → Option (List (List Char))
  | [] => some q
  | p :: ps =>
    match put_nowait q p with
    | none => none
    | some q2 => enqueue_all q2 ps

/-- `SEND_QUEUE.get` (line 203): pops the oldest element; `none` models the
`queue.Empty` timeout. -/
def dequeue : List (List Char) → Option (List Char × List (List Char))
  | [] => none
  | c :: rest => some (c, rest)

/-- Repeatedly dequeue until empty, collecting the payloads in the order
they come out. -/
def drain : List (List Char) → List (List Char)
  | [] => []
  | c :: rest => c :: drain rest

/-- The operations that touch `WEBHOOK_URL_CACHE`: a `get_webhook_url` call
(`disk` is what `load_config` would read from disk at that moment, `[]`
when no config is readable), or a `save_config url` call whose file write
succeeded or failed (`write_ok`). -/
inductive ConfigOp where
  | get (disk : List Char)
  | save (url : List Char) (write_ok : Bool)
deriving DecidableEq

/-- `get_webhook_url` (lines 67-71): loads from disk only when the cache is
unset, then returns and keeps the cached value. Returns the value handed to
the caller and the new cache. -/
def get_webhook_url (cache : Option (List Char)) (disk : List Char) :
    List Char × Option (List Char) :=
  match cache with
  | none => (disk, some disk)
  | some u => (u, some u)

/-- `save_config` (lines 111-136): on the first successful candidate write
the cache is set to `url`; when every candidate write fails the cache is
left untouched. -/
def save_config (cache : Option (List Char)) (url : List Char) (write_ok : Bool) :
    Option (List Char) :=
  if write_ok then some url else cache

/-- Run a sequence of cache operations, returning the final cache and the
values the `get` calls returned, in order. -/
def run_config : Option (List Char) → List ConfigOp → Option (List Char) × List (List Char)
  | cache, [] => (cache, [])
  | cache, ConfigOp.get disk :: ops =>
    let p := get_webhook_url cache disk
    let rest := run_config p.2 ops
    (rest.1, p.1 :: rest.2)
  | cache, ConfigOp.save url ok :: ops => run_config (save_config cache url ok) ops

/-- Whether an operation is a `save_config` call whose write succeeded (the
only operation that may overwrite an already-populated cache). -/
def successful_save : ConfigOp → Bool
  | ConfigOp.save _ true => true
  | _ => false

example :
    run_config none [ConfigOp.get ['a'], ConfigOp.get ['b']] = (some ['a'], [['a'], ['a']]) := by
  decide

lemma backoff_after_succ (n : ℕ) : backoff_after (n + 1) = min ((2 : ℚ) ^ n) 30 := by
  induction n with
  | zero => norm_num [backoff_after, backoff_update]
  | succ k ih =>
    have hne : min ((2 : ℚ) ^ k) 30 ≠ 0 := by
      have h2 : (0 : ℚ) < 2 ^ k := by positivity
      exact ne_of_gt (lt_min h2 (by norm_num))
    have step : backoff_after (k + 1 + 1) = backoff_update (backoff_after (k + 1)) := rfl
    rw [step, ih]
    unfold backoff_update
    rw [if_neg hne]
    rcases le_total ((2 : ℚ) ^ k) 30 with hle | hle
    · rw [min_eq_left hle, pow_succ]
    · have hk1 : (30 : ℚ) ≤ 2 ^ (k + 1) := by
        calc (30 : ℚ) ≤ 2 ^ k := hle
        _ ≤ 2 ^ (k + 1) := by
          apply pow_le_pow_right₀ (by norm_num) (Nat.le_succ k)
      rw [min_eq_right hle, min_eq_right hk1]
      norm_num

/-- Claim C1 counterexample: on a 429 whose Retry-After header parses as
the negative number -3 while the body's rate-limit field is 7.0, the code
sleeps `max(-3, 0.5) = 0.5` seconds, taken from the header; the claim's
precedence (header only when non-negative, otherwise the body field) would
give a 7-second sleep. -/
theorem retry_delay_header_sign_counterexample :
    ¬ (sleep_before_retry (some (-3)) (some 7) =
        max (retry_after_spec (some (-3)) (some 7)) (1 / 2)) := by
  norm_num [sleep_before_retry, retry_after_of, retry_after_spec]

/-- Claim C1 (amended): the retry delay is the Retry-After header whenever
it is present and parses as a number, negative values included; only when
the header is absent or unparseable does the body's retry_after field
apply, with 1.0 as the final default; the worker sleeps
`max(retry_delay, 0.5)`, so a negative header value yields a 0.5-second
sleep taken from the header, not the body's value. -/
theorem retry_delay_precedence :
    (∀ v body, retry_after_of (some v) body = v) ∧
    (∀ v, retry_after_of none (some v) = v) ∧
    (retry_after_of none none = 1) ∧
    (∀ header body, sleep_before_retry header body =
        max (retry_after_of header body) (1 / 2)) ∧
    (∀ v body, v < 0 → sleep_before_retry (some v) body = 1 / 2) := by
  refine ⟨fun v body => rfl, fun v => rfl, rfl, fun header body => rfl, ?_⟩
  intro v body hv
  unfold sleep_before_retry retry_after_of
  exact max_eq_right (le_of_lt (lt_trans hv (by norm_num)))

/-- Witness for the amended claim C1 at header value -3, body value 7. -/
theorem retry_delay_precedence_witness :
    (-3 : ℚ) < 0 ∧ sleep_before_retry (some (-3)) (some 7) = 1 / 2 :=
  ⟨by norm_num, retry_delay_precedence.2.2.2.2 (-3) (some 7) (by norm_num)⟩

/-- Claim C2: the backoff starts at 0; a successful iteration resets it to
exactly 0; a failed iteration from backoff `b` updates it to
`backoff_update b` and sleeps exactly that amount before the next dequeue;
and after N consecutive failed iterations from a fresh (or freshly reset)
state the backoff, hence the sleep taken after the Nth failure, is
`min(2^(N-1), 30)` seconds. -/
theorem worker_backoff_schedule :
    backoff_after 0 = 0 ∧
    (∀ c rest b responses reset_hint,
        (send_to_discord responses).outcome = SendOutcome.ok reset_hint →
        (worker_iteration ⟨c :: rest, b⟩ responses).state.backoff = 0) ∧
    (∀ c rest b responses,
        (send_to_discord responses).outcome = SendOutcome.failed →
        (worker_iteration ⟨c :: rest, b⟩ responses).state.backoff = backoff_update b ∧
        (worker_iteration ⟨c :: rest, b⟩ responses).sleeps =
          (send_to_discord responses).sleeps ++ [backoff_update b]) ∧
    (∀ N, 1 ≤ N → backoff_after N = min ((2 : ℚ) ^ (N - 1)) 30) := by
  refine ⟨rfl, ?_, ?_, ?_⟩
  · intro c rest b responses reset_hint hok
    simp [worker_iteration, hok]
  · intro c rest b responses hfail
    constructor <;> simp [worker_iteration, hfail]
  · intro N hN
    cases N with
    | zero => omega
    | succ k => simpa using backoff_after_succ k

/-- Witness for claim C2: a 200 response resets a backoff of 5 to 0, a
transport failure updates it through `backoff_update`, and the sixth
consecutive failure sleeps min(2^5, 30) = 30 seconds. -/
theorem worker_backoff_schedule_witness :
    ((send_to_discord (fun _ => some (HttpResponse.mk 200 none none none))).outcome =
        SendOutcome.ok none ∧
      (worker_iteration ⟨[['x']], 5⟩
          (fun _ => some (HttpResponse.mk 200 none none none))).state.backoff = 0) ∧
    ((send_to_discord (fun _ => none)).outcome = SendOutcome.failed ∧
      (worker_iteration ⟨[['x']], 5⟩ (fun _ => none)).state.backoff = backoff_update 5) ∧
    (1 ≤ 6 ∧ backoff_after 6 = min ((2 : ℚ) ^ (6 - 1)) 30) :=
  ⟨⟨by decide,
      worker_backoff_schedule.2.1 ['x'] [] 5
        (fun _ => some (HttpResponse.mk 200 none none none)) none (by decide)⟩,
    ⟨by decide,
      (worker_backoff_schedule.2.2.1 ['x'] [] 5 (fun _ => none) (by decide)).1⟩,
    ⟨by norm_num, worker_backoff_schedule.2.2.2 6 (by norm_num)⟩⟩

lemma backquote_not_mem_clean (s : List Char) : backquote ∉ clean_chars s := by
  intro hmem
  rcases List.mem_map.mp hmem with ⟨c, _, hc⟩
  by_cases h : c = backquote
  · rw [if_pos h] at hc
    exact absurd hc (by decide)
  · rw [if_neg h] at hc
    exact h hc

lemma backquote_not_mem_truncate (cm : List Char) (hcm : backquote ∉ cm) :
    backquote ∉ truncate_message cm := by
  unfold truncate_message
  split
  · intro hmem
    rcases List.mem_append.mp hmem with h1 | h2
    · exact hcm (List.take_subset _ _ h1)
    · exact absurd h2 (by decide)
  · exact hcm

/-- Claim C3: the enqueued payload is exactly the two-digit HH:MM local
time, a space, the characters `[**`, the backquote-cleaned sender, the
characters `**]: `, and the (cleaned and possibly truncated) message
delimited by backquotes; neither the cleaned sender nor the cleaned message
segment contains a raw backquote — every backquote in the inputs has become
a single quote. -/
theorem payload_format (h m : ℕ) (sender message : List Char) :
    format_content h m sender message =
      timestamp_hhmm h m ++ [' '] ++ "[**".toList ++ clean_chars sender
        ++ "**]: ".toList ++ [backquote]
        ++ truncate_message (clean_chars message) ++ [backquote] ∧
    (timestamp_hhmm h m).length = 5 ∧
    backquote ∉ clean_chars sender ∧
    backquote ∉ truncate_message (clean_chars message) := by
  refine ⟨?_, rfl, backquote_not_mem_clean sender,
    backquote_not_mem_truncate _ (backquote_not_mem_clean message)⟩
  simp [format_content, List.append_assoc]

/-- Claim C4: a message whose cleaned length exceeds 1800 characters is
replaced by exactly its first 1799 characters followed by the three-dot
ellipsis, for a message segment of exactly 1802 characters; a message of
length at most 1800 is left unchanged. -/
theorem message_truncation (cm : List Char) :
    (cm.length > 1800 →
      truncate_message cm = cm.take 1799 ++ ellipsis ∧
      (truncate_message cm).length = 1802) ∧
    (cm.length ≤ 1800 → truncate_message cm = cm) := by
  constructor
  · intro hlong
    have heq : truncate_message cm = cm.take 1799 ++ ellipsis := by
      unfold truncate_message max_message_length
      rw [if_pos (by omega)]
    refine ⟨heq, ?_⟩
    rw [heq]
    simp [ellipsis, List.length_take]
    omega
  · intro hshort
    unfold truncate_message max_message_length
    rw [if_neg (by omega)]

/-- Witness for claim C4 at a 1801-character message and a 2-character
message. -/
theorem message_truncation_witness :
    ((List.replicate 1801 'a').length > 1800 ∧
      truncate_message (List.replicate 1801 'a') =
        (List.replicate 1801 'a').take 1799 ++ ellipsis ∧
      (truncate_message (List.replicate 1801 'a')).length = 1802) ∧
    (['h', 'i'].length ≤ 1800 ∧ truncate_message ['h', 'i'] = ['h', 'i']) :=
  ⟨⟨by rw [List.length_replicate]; norm_num,
      ((message_truncation (List.replicate 1801 'a')).1
        (by rw [List.length_replicate]; norm_num)).1,
      ((message_truncation (List.replicate 1801 'a')).1
        (by rw [List.length_replicate]; norm_num)).2⟩,
    ⟨by simp, (message_truncation ['h', 'i']).2 (by simp)⟩⟩

/-- Claim C5: each `send_to_discord` call issues at most two POSTs; when
the first response is a 429 it sleeps exactly `max(retry_after, 0.5)` —
hence at least the computed retry delay — and retries exactly once,
whatever the second attempt returns; and the worker always consumes the
dequeued payload without re-enqueuing it, whatever the outcome. -/
theorem at_most_two_attempts :
    (∀ responses, (send_to_discord responses).attempts ≤ 2) ∧
    (∀ responses r, responses 0 = some r → r.status_code = 429 →
        (send_to_discord responses).attempts = 2 ∧
        (send_to_discord responses).sleeps =
          [sleep_before_retry r.retry_after_header r.body_retry_after] ∧
        retry_after_of r.retry_after_header r.body_retry_after ≤
          sleep_before_retry r.retry_after_header r.body_retry_after) ∧
    (∀ c rest b responses,
        (worker_iteration ⟨c :: rest, b⟩ responses).state.queue = rest) := by
  refine ⟨?_, ?_, ?_⟩
  · intro responses
    unfold send_to_discord
    rcases h0 : responses 0 with _ | r
    · norm_num
    · dsimp only
      split
      · rcases h1 : responses 1 with _ | r2
        · norm_num
        · dsimp only
          split <;> norm_num
      · split <;> norm_num
  · intro responses r h0 h429
    have hsleep : retry_after_of r.retry_after_header r.body_retry_after ≤
        sleep_before_retry r.retry_after_header r.body_retry_after := le_max_left _ _
    unfold send_to_discord
    rw [h0]
    dsimp only
    rw [if_pos h429]
    rcases h1 : responses 1 with _ | r2
    · exact ⟨rfl, rfl, hsleep⟩
    · dsimp only
      split <;> exact ⟨rfl, rfl, hsleep⟩
  · intro c rest b responses
    cases hout : (send_to_discord responses).outcome <;>
      simp [worker_iteration, hout]

/-- Witness for claim C5: both POSTs return 429 with Retry-After 2; the
call makes exactly two attempts, sleeps 2 seconds before the retry, and
the worker drops the payload. -/
theorem at_most_two_attempts_witness :
    ((fun _ => some (HttpResponse.mk 429 (some 2) none none)) 0 =
        some (HttpResponse.mk 429 (some 2) none none) ∧
      (HttpResponse.mk 429 (some 2) none none).status_code = 429 ∧
      (send_to_discord (fun _ => some (HttpResponse.mk 429 (some 2) none none))).attempts = 2 ∧
      (send_to_discord (fun _ => some (HttpResponse.mk 429 (some 2) none none))).sleeps =
        [sleep_before_retry (some 2) none]) ∧
    (worker_iteration ⟨[['x']], 0⟩
        (fun _ => some (HttpResponse.mk 429 (some 2) none none))).state.queue = [] :=
  ⟨⟨rfl, rfl,
      (at_most_two_attempts.2.1 (fun _ => some (HttpResponse.mk 429 (some 2) none none))
        (HttpResponse.mk 429 (some 2) none none) rfl rfl).1,
      (at_most_two_attempts.2.1 (fun _ => some (HttpResponse.mk 429 (some 2) none none))
        (HttpResponse.mk 429 (some 2) none none) rfl rfl).2.1⟩,
    at_most_two_attempts.2.2 ['x'] [] 0
      (fun _ => some (HttpResponse.mk 429 (some 2) none none))⟩

/-- Claim C6: when the resolved destination does not match the accepted
webhook prefixes (the empty/unset string included), the endpoint answers
the configuration-error JSON body and the queue is left unchanged, so the
request causes no outbound call. -/
theorem invalid_destination_rejected (url : List Char) (h m : ℕ)
    (sender message : List Char) (q : List (List Char))
    (hv : is_valid_webhook_prefix url = false) :
    forwarder url h m sender message q =
      (⟨"error".toList, some "Discord webhook not configured correctly.".toList⟩, q) := by
  simp [forwarder, hv]

/-- Witness for claim C6 at the unset (empty) destination. -/
theorem invalid_destination_rejected_witness :
    is_valid_webhook_prefix [] = false ∧
    forwarder [] 12 0 ['B'] ['H'] [['p']] =
      (⟨"error".toList, some "Discord webhook not configured correctly.".toList⟩, [['p']]) :=
  ⟨by decide, invalid_destination_rejected [] 12 0 ['B'] ['H'] [['p']] (by decide)⟩

/-- Claim C7: with a valid destination, a request arriving while the queue
holds 500 payloads is answered with the queue-full error body and nothing
is enqueued (no blocking, no retry — `put_nowait` fails immediately at
capacity); below capacity the payload is appended and the endpoint answers
the queued acknowledgment. -/
theorem queue_capacity_admission (url : List Char) (h m : ℕ)
    (sender message : List Char) (q : List (List Char))
    (hv : is_valid_webhook_prefix url = true) :
    (q.length = QUEUE_MAXSIZE →
      forwarder url h m sender message q =
        (⟨"error".toList, some "Queue full! Message discarded.".toList⟩, q)) ∧
    (q.length < QUEUE_MAXSIZE →
      forwarder url h m sender message q =
        (⟨"queued".toList, none⟩, q ++ [format_content h m sender message])) := by
  constructor <;> intro hq <;> simp [forwarder, hv, put_nowait, hq]

/-- Witness for claim C7 at a queue of exactly 500 payloads and at the
empty queue, with a valid webhook url. -/
theorem queue_capacity_admission_witness :
    ( is_valid_webhook_prefix ("https://discord.com/api/webhooks/1".toList) = true ∧
      (List.replicate 500 ['p']).length = QUEUE_MAXSIZE ∧
      forwarder ("https://discord.com/api/webhooks/1".toList) 9 5 ['B'] ['H']
          (List.replicate 500 ['p']) =
        (⟨"error".toList, some "Queue full! Message discarded.".toList⟩,
          List.replicate 500 ['p'])) ∧
    (([] : List (List Char)).length < QUEUE_MAXSIZE ∧
      forwarder ("https://discord.com/api/webhooks/1".toList) 9 5 ['B'] ['H'] [] =
        (⟨"queued".toList, none⟩, [format_content 9 5 ['B'] ['H']])) :=
  ⟨⟨by decide, by rw [List.length_replicate]; rfl,
      (queue_capacity_admission ("https://discord.com/api/webhooks/1".toList) 9 5 ['B'] ['H']
        (List.replicate 500 ['p']) (by decide)).1 (by rw [List.length_replicate]; rfl)⟩,
    ⟨by decide,
      by simpa using
        (queue_capacity_admission ("https://discord.com/api/webhooks/1".toList) 9 5 ['B'] ['H']
          [] (by decide)).2 (by decide)⟩⟩

/-- Claim C8: the pacing sleep after a successful send is exactly
`max(base_spacing, reset_after_hint)`: `base_spacing` alone when the hint
is missing or unparseable, and the worker performs that sleep at the end of
every successful iteration. -/
theorem success_pacing :
    (success_spacing none = base_spacing) ∧
    (∀ v, success_spacing (some v) = max base_spacing v) ∧
    (∀ c rest b responses reset_hint,
        (send_to_discord responses).outcome = SendOutcome.ok reset_hint →
        (worker_iteration ⟨c :: rest, b⟩ responses).sleeps =
          (send_to_discord responses).sleeps ++ [success_spacing reset_hint]) := by
  refine ⟨rfl, ?_, ?_⟩
  · intro v
    by_cases hv : v = 0
    · have hb : (0 : ℚ) ≤ base_spacing := by norm_num [base_spacing]
      rw [hv]
      simp [success_spacing, max_eq_left hb]
    · simp [success_spacing, hv]
  · intro c rest b responses reset_hint hok
    simp [worker_iteration, hok]

/-- Witness for claim C8: a 200 response with reset-after hint 3 makes the
iteration end with a `max(0.45, 3)` pacing sleep. -/
theorem success_pacing_witness :
    success_spacing (some 3) = max base_spacing 3 ∧
    ((send_to_discord (fun _ => some (HttpResponse.mk 200 none none (some 3)))).outcome =
        SendOutcome.ok (some 3) ∧
      (worker_iteration ⟨[['x']], 7⟩
          (fun _ => some (HttpResponse.mk 200 none none (some 3)))).sleeps =
        (send_to_discord (fun _ => some (HttpResponse.mk 200 none none (some 3)))).sleeps
          ++ [success_spacing (some 3)]) :=
  ⟨success_pacing.2.1 3,
    ⟨by decide,
      success_pacing.2.2 ['x'] [] 7
        (fun _ => some (HttpResponse.mk 200 none none (some 3))) (some 3) (by decide)⟩⟩

lemma drain_id (q : List (List Char)) : drain q = q := by
  induction q with
  | nil => rfl
  | cons c rest ih => simp [drain, ih]

lemma enqueue_all_from (ps : List (List Char)) : ∀ q : List (List Char),
    q.length + ps.length ≤ QUEUE_MAXSIZE → enqueue_all q ps = some (q ++ ps) := by
  induction ps with
  | nil => intro q _; simp [enqueue_all]
  | cons p ps ih =>
    intro q hq
    rw [List.length_cons] at hq
    have hlt : q.length < QUEUE_MAXSIZE := by omega
    have step : enqueue_all q (p :: ps) = enqueue_all (q ++ [p]) ps := by
      simp [enqueue_all, put_nowait, hlt]
    rw [step, ih (q ++ [p]) (by rw [List.length_append]; simp; omega)]
    simp

/-- Claim C9: any sequence of at most 500 payloads enqueued into the empty
channel all succeed and leave the channel holding exactly that sequence,
and repeated dequeue returns it unchanged — the Nth successfully enqueued
payload is the Nth dequeued. -/
theorem fifo_order (ps : List (List Char)) (hlen : ps.length ≤ QUEUE_MAXSIZE) :
    enqueue_all [] ps = some ps ∧ drain ps = ps := by
  constructor
  · simpa using enqueue_all_from ps [] (by simpa using hlen)
  · exact drain_id ps

/-- Witness for claim C9 at a two-payload sequence. -/
theorem fifo_order_witness :
    ([['a'], ['b']] : List (List Char)).length ≤ QUEUE_MAXSIZE ∧
    enqueue_all [] [['a'], ['b']] = some [['a'], ['b']] ∧
    drain [['a'], ['b']] = [['a'], ['b']] :=
  ⟨by decide, (fifo_order [['a'], ['b']] (by decide)).1,
    (fifo_order [['a'], ['b']] (by decide)).2⟩

lemma run_config_cached (ops : List ConfigOp) : ∀ u : List Char,
    (∀ op ∈ ops, successful_save op = false) →
    (run_config (some u) ops).1 = some u ∧
    ∀ r ∈ (run_config (some u) ops).2, r = u := by
  induction ops with
  | nil => intro u _; simp [run_config]
  | cons op ops ih =>
    intro u h
    have hrest : ∀ o ∈ ops, successful_save o = false :=
      fun o ho => h o (List.mem_cons_of_mem _ ho)
    cases op with
    | get disk =>
      rcases ih u hrest with ⟨h1, h2⟩
      constructor
      · simpa [run_config, get_webhook_url] using h1
      · intro r hr
        simp [run_config, get_webhook_url] at hr
        rcases hr with rfl | hr
        · rfl
        · exact h2 r hr
    | save url ok =>
      cases ok with
      | false => simpa [run_config, save_config] using ih u hrest
      | true =>
        have hcontra := h (ConfigOp.save url true) (List.mem_cons_self _ _)
        simp [successful_save] at hcontra

/-- Claim C10: the first `get_webhook_url` call populates the cache with
whatever `load_config` read (the empty string included) and returns it;
once the cache holds a value every later call returns it unchanged,
regardless of the config file on disk; a `save_config` whose write succeeds
replaces the cache with the new url, while one whose every write fails
leaves it untouched — so across any operation sequence without a
successful save, every call returns the originally cached value. -/
theorem webhook_cache_behaviour :
    (∀ disk, get_webhook_url none disk = (disk, some disk)) ∧
    (∀ u disk, get_webhook_url (some u) disk = (u, some u)) ∧
    (∀ cache url, save_config cache url true = some url) ∧
    (∀ cache url, save_config cache url false = cache) ∧
    (∀ u ops, (∀ op ∈ ops, successful_save op = false) →
        (run_config (some u) ops).1 = some u ∧
        ∀ r ∈ (run_config (some u) ops).2, r = u) :=
  ⟨fun _ => rfl, fun _ _ => rfl, fun _ _ => rfl, fun _ _ => rfl,
    fun u ops h => run_config_cached ops u h⟩

/-- Witness for claim C10: caching the empty string, then a failed save and
two gets against changed disk contents, leaves the cache holding the empty
string. -/
theorem webhook_cache_behaviour_witness :
    successful_save (ConfigOp.save ['w'] false) = false ∧
    (run_config (some [])
        [ConfigOp.get ['z'], ConfigOp.save ['w'] false, ConfigOp.get ['y']]).1 = some [] :=
  ⟨by decide,
    (webhook_cache_behaviour.2.2.2.2 []
      [ConfigOp.get ['z'], ConfigOp.save ['w'] false, ConfigOp.get ['y']] (by decide)).1⟩
